import Mathlib

/-!
# Verification of the WebsiteQnA in-page agent (`agent.js`)

A shallow embedding of the agent logic of `agent.js` (both concatenated
variants of the `WebPageAgent` class) together with theorems settling the
frozen claims C1..C10 about it.

Modelling conventions:
* A live DOM is a forest of nodes (`Node`), each holding the attributes the
  source reads (`Element`).  `document.querySelectorAll` returns matches in
  document order, i.e. preorder traversal.
* CSS selector strings are represented by their parsed form (`Locator` /
  `SimpleSel`): `Locator.valid s sels` is a selector string `s` whose browser
  parse is the comma-list `sels`; `Locator.invalid s` is a string rejected by
  `querySelector(All)` (the source anticipates these with try/catch);
  `Locator.noSel` is a `null`/`undefined` selector (a JS falsy value).
* Timing (`wait`, `sleep`, scrolling, highlight animation) is dropped; the
  functions are modelled as pure state transformers over the DOM.  A click is
  recorded in a click log (list of node refs, in order) and its state effect
  on checkboxes/radios is applied to the DOM.
* JS exceptions are modelled with `Except String`.
* JS falsy string arguments (`null`/`undefined`/`""`) are modelled as `none`.
-/

namespace WebAgent

/-! ## String utilities (JS `includes`, `toLowerCase`, `trim`, ...) -/

/-- Decide whether `needle` occurs as a contiguous substring of `hay`
(JS `String.prototype.includes`; the empty needle always matches). -/
def charsIncludes (needle : List Char) : List Char → Bool
  | [] => needle.isEmpty
  | c :: t => needle.isPrefixOf (c :: t) || charsIncludes needle t

/-- JS `hay.includes(needle)`. -/
def strIncludes (hay needle : String) : Bool :=
  charsIncludes needle.data hay.data

/-- JS `s.toLowerCase()` (ASCII-adequate model). -/
def toLowerStr (s : String) : String := String.mk (s.data.map Char.toLower)

/-- Uppercase a tag name, as `tagName` is reported uppercased by the DOM. -/
def toUpperStr (s : String) : String := String.mk (s.data.map Char.toUpper)

/-- JS `s.startsWith(pre)`. -/
def strStartsWith (s pre : String) : Bool := pre.data.isPrefixOf s.data

/-- JS `s.substring(n)`. -/
def strDrop (s : String) (n : Nat) : String := String.mk (s.data.drop n)

/-- Split a character list on a separator character. -/
def splitOnCharAux (sep : Char) : List Char → List Char → List String
  | [], cur => [String.mk cur.reverse]
  | c :: t, cur =>
    if c = sep then String.mk cur.reverse :: splitOnCharAux sep t []
    else splitOnCharAux sep t (c :: cur)

/-- Split a string on a separator character (JS `s.split(sep)`). -/
def splitOnChar (sep : Char) (s : String) : List String :=
  splitOnCharAux sep s.data []

/-- Whitespace characters trimmed by JS `s.trim()`. -/
def isWsChar (c : Char) : Bool := c = ' ' || c = '\n' || c = '\t' || c = '\r'

/-- JS `s.trim()`. -/
def trimStr (s : String) : String :=
  String.mk (((s.data.dropWhile isWsChar).reverse.dropWhile isWsChar).reverse)

/-! ## The DOM model -/

/-- One DOM element, restricted to the attributes/properties the source code
reads.  `ref` is the node identity (JS object identity); `typ` is the `type`
property of the element (`"radio"`, `"checkbox"`, ... ; `""` when absent);
`attrs` holds further attributes such as `aria-label`, `title`, `data-*`.
`width`/`height`/`top`/`left` model `getBoundingClientRect()`;
`display`/`visibility`/`pointerEvents` model the computed style. -/
structure Element where
  ref : Nat
  tag : String
  typ : String
  idAttr : String
  className : String
  attrs : List (String × String)
  text : String
  value : String
  checked : Bool
  disabled : Bool
  display : String
  visibility : String
  pointerEvents : String
  width : Int
  height : Int
  top : Int
  left : Int

/-- A DOM forest in first-child/next-sibling form: `node el children rest`
is an element, the forest of its children, and the forest of its following
siblings.  (This is the standard isomorphic presentation of a rose-tree
forest; it keeps every traversal structurally recursive.) -/
inductive Forest where
  | nil
  | node (el : Element) (children rest : Forest)

/-- All elements of a forest, in document (preorder) order. -/
def forestElems : Forest → List Element
  | .nil => []
  | .node el ch rest => el :: (forestElems ch ++ forestElems rest)

/-- Map a function over every element of a forest. -/
def mapForest (f : Element → Element) : Forest → Forest
  | .nil => .nil
  | .node el ch rest => .node (f el) (mapForest f ch) (mapForest f rest)

/-- Locate the node with the given `ref`: its element and its children. -/
def findNodeByRef (r : Nat) : Forest → Option (Element × Forest)
  | .nil => none
  | .node el ch rest =>
    if el.ref = r then some (el, ch)
    else
      match findNodeByRef r ch with
      | some p => some p
      | none => findNodeByRef r rest

/-- The page context: `window.location.hostname`, the viewport size
(`window.innerWidth`/`innerHeight`) and the live DOM forest. -/
structure Page where
  hostname : String
  innerWidth : Int
  innerHeight : Int
  dom : Forest

/-- Current element state looked up by node identity (a JS element reference
always reads the live node). -/
def lookupRef (dom : Forest) (r : Nat) : Option Element :=
  (forestElems dom).find? (fun e => e.ref == r)

/-! ## Selectors -/

/-- Parsed form of the simple CSS selectors occurring in the source:
type selectors, class selectors, id selectors, attribute tests and
conjunctions such as `input[type="radio"]` or `.vote.up`. -/
inductive SimpleSel where
  | tag (t : String)
  | cls (c : String)
  | idSel (i : String)
  | attrEq (a v : String)
  | attrHas (a : String)
  | attrContains (a v : String)
  | and (s₁ s₂ : SimpleSel)

/-- Read an attribute of an element (`id`, `class` and `type` are kept in
dedicated fields; an empty dedicated field models an absent attribute). -/
def getAttr (el : Element) (a : String) : Option String :=
  if a = "id" then (if el.idAttr = "" then none else some el.idAttr)
  else if a = "class" then (if el.className = "" then none else some el.className)
  else if a = "type" then (if el.typ = "" then none else some el.typ)
  else (el.attrs.find? (fun p => p.1 == a)).map (fun p => p.2)

/-- Does the element match one simple selector? -/
def matchesSimple (el : Element) : SimpleSel → Bool
  | .tag t => el.tag == toUpperStr t
  | .cls c => (splitOnChar ' ' el.className).contains c
  | .idSel i => el.idAttr == i
  | .attrEq a v =>
    match getAttr el a with
    | some w => w == v
    | none => false
  | .attrHas a => (getAttr el a).isSome
  | .attrContains a v =>
    match getAttr el a with
    | some w => strIncludes w v
    | none => false
  | .and s₁ s₂ => matchesSimple el s₁ && matchesSimple el s₂

/-- Does the element match a comma-list of simple selectors? -/
def matchesSel (el : Element) (sels : List SimpleSel) : Bool :=
  sels.any (matchesSimple el)

/-- `document.querySelectorAll(sels)`: all matching elements of the page, in
document order. -/
def qsa (page : Page) (sels : List SimpleSel) : List Element :=
  (forestElems page.dom).filter (fun el => matchesSel el sels)

/-- `node.querySelectorAll(sels)`: matching strict descendants, given the
node's children forest. -/
def qsaFrom (children : Forest) (sels : List SimpleSel) : List Element :=
  (forestElems children).filter (fun el => matchesSel el sels)

/-- A selector argument as passed around by the source: absent (`null` /
`undefined`, JS-falsy), an invalid selector string, or a valid selector
string together with its parse. -/
inductive Locator where
  | noSel
  | invalid (s : String)
  | valid (s : String) (sels : List SimpleSel)

/-- The underlying selector string, when there is one. -/
def locStr : Locator → Option String
  | .noSel => none
  | .invalid s => some s
  | .valid s _ => some s

/-! ## Interactability predicates -/

/-- Variant 1 `isElementClickable`: computed style not display-suppressed,
not hidden, not pointer-blocked, non-zero area, not disabled. -/
def isElementClickable (el : Element) : Bool :=
  el.display != "none" && el.visibility != "hidden" &&
  el.pointerEvents != "none" && el.width > 0 && el.height > 0 && !el.disabled

/-- Variant 2 `isElementVisible`: non-zero rect inside the viewport's
top-left bounds, not hidden, not display-suppressed. -/
def isElementVisible (page : Page) (el : Element) : Bool :=
  el.width > 0 && el.height > 0 && el.top < page.innerHeight &&
  el.left < page.innerWidth && el.visibility != "hidden" && el.display != "none"

/-- Variant 2 `isElementInteractable`: visible and not disabled. -/
def isElementInteractable (page : Page) (el : Element) : Bool :=
  isElementVisible page el && !el.disabled

/-! ## Variant 1 element finding: `findElements` and its strategies -/

/-- The selector list the source uses for voting descriptions. -/
def votingSel : List SimpleSel :=
  [.cls "upvote", .cls "vote-up", .cls "arrow-up",
   .attrContains "aria-label" "upvote", .attrContains "title" "upvote",
   .cls "fa-arrow-up", .cls "icon-up",
   .and (.tag "button") (.attrEq "data-action" "upvote")]

/-- The selector list the source uses for question/answer/quiz
descriptions. -/
def questionSel : List SimpleSel :=
  [.and (.tag "input") (.attrEq "type" "radio"),
   .and (.tag "input") (.attrEq "type" "checkbox"),
   .cls "question-option", .cls "answer-choice", .cls "quiz-option",
   .attrHas "data-answer", .cls "option", .cls "choice"]

/-- The selector list the source uses for post descriptions. -/
def postSel : List SimpleSel :=
  [.cls "post", .attrHas "data-post", .cls "entry", .cls "item",
   .cls "content-item", .tag "article"]

/-- The selector list the source uses for button/click descriptions. -/
def buttonSel : List SimpleSel :=
  [.tag "button", .cls "button", .attrEq "role" "button"]

/-- Reddit-specific upvote selectors of `findElementsByCommonPatterns`. -/
def redditUpvoteSel : List SimpleSel :=
  [.cls "upvote", .attrContains "aria-label" "upvote",
   .and (.cls "arrow") (.cls "up"), .and (.cls "vote") (.cls "up")]

/-- Reddit-specific post selectors of `findElementsByCommonPatterns`. -/
def redditPostSel : List SimpleSel :=
  [.cls "Post", .attrEq "data-testid" "post"]

/-- Quiz selectors of `findElementsByCommonPatterns`. -/
def commonQuizSel : List SimpleSel :=
  [.and (.tag "input") (.attrEq "type" "radio"),
   .and (.tag "input") (.attrEq "type" "checkbox"),
   .cls "question", .cls "quiz-question", .attrHas "data-question"]

/-- `findElementsByDescription`: keyword dispatch on the lowercased
description into fixed selector lists. -/
def findElementsByDescription (description : String) (page : Page) :
    List Element :=
  let desc := toLowerStr description
  if strIncludes desc "upvote" || strIncludes desc "vote up" then
    qsa page votingSel
  else if strIncludes desc "question" || strIncludes desc "answer" ||
      strIncludes desc "quiz" then
    qsa page questionSel
  else if strIncludes desc "post" then
    qsa page postSel
  else if strIncludes desc "button" || strIncludes desc "click" then
    qsa page buttonSel
  else []

/-- `findElementsByCommonPatterns`: site-specific (reddit) patterns first,
then generic quiz patterns, else the empty list. -/
def findElementsByCommonPatterns (description : Option String) (page : Page) :
    List Element :=
  let desc := toLowerStr (description.getD "")
  let generic : List Element :=
    if strIncludes desc "question" || strIncludes desc "answer" then
      qsa page commonQuizSel
    else []
  if strIncludes page.hostname "reddit" then
    if strIncludes desc "upvote" then qsa page redditUpvoteSel
    else if strIncludes desc "post" then qsa page redditPostSel
    else generic
  else generic

/-- The attribute family scanned by `findElementsByAdvancedAnalysis`. -/
def advancedAttrs : List String :=
  ["aria-label", "title", "placeholder", "name", "id", "alt"]

/-- The TypeError thrown by `el[attr].toLowerCase()` when the attribute
does not reflect as a same-named JS property (the access yields
`undefined`). -/
def undefinedPropErr : String :=
  "TypeError: Cannot read properties of undefined (reading toLowerCase)"

/-- The JS property read `el[attr]` for the scanned attribute family.
`aria-label` never reflects as a bracket-access property (the DOM property
is camel-cased), `title` and `id` reflect on every element, `placeholder`
only on input/textarea, `name` only on form-associated elements (and a few
legacy tags), `alt` only on img/area/input.  `none` models `undefined`;
on reflecting elements the property mirrors the attribute value. -/
def propRead (el : Element) (a : String) : Option String :=
  if a = "aria-label" then none
  else if a = "placeholder" then
    if el.tag = "INPUT" || el.tag = "TEXTAREA" then getAttr el a else none
  else if a = "name" then
    if el.tag = "INPUT" || el.tag = "TEXTAREA" || el.tag = "SELECT" ||
        el.tag = "BUTTON" || el.tag = "FORM" || el.tag = "IMG" ||
        el.tag = "IFRAME" || el.tag = "OBJECT" then getAttr el a else none
  else if a = "alt" then
    if el.tag = "IMG" || el.tag = "AREA" || el.tag = "INPUT" then getAttr el a
    else none
  else getAttr el a

/-- The inner `forEach` of the attribute scan: for each element carrying
the attribute (in document order), read `el[attr]` as a property — throwing
at the first element where the property is `undefined` — and keep the
elements whose lowercased value contains the description. -/
def scanAttrElems (desc : String) (a : String) :
    List Element → Except String (List Element)
  | [] => .ok []
  | el :: rest =>
    match propRead el a with
    | none => .error undefinedPropErr
    | some v =>
      match scanAttrElems desc a rest with
      | .error e => .error e
      | .ok tl => .ok (if strIncludes (toLowerStr v) desc then el :: tl else tl)

/-- The outer `forEach` over the attribute family, in the source's order
(`aria-label` first); a throw in an inner scan aborts the whole loop. -/
def scanAttrs (desc : String) (page : Page) :
    List String → Except String (List Element)
  | [] => .ok []
  | a :: rest =>
    match scanAttrElems desc a
        ((forestElems page.dom).filter (fun el => (getAttr el a).isSome)) with
    | .error e => .error e
    | .ok l1 =>
      match scanAttrs desc page rest with
      | .error e => .error e
      | .ok l2 => .ok (l1 ++ l2)

/-- `findElementsByAdvancedAnalysis`: elements whose text contains the
lowercased description (the XPath `contains(translate(...))` probe), then,
attribute by attribute, elements carrying one of the identifying attributes
whose property value contains the description.  The property access
`el[attr]` is `undefined` for non-reflecting attribute/element pairs
(notably every `aria-label`), so the scan throws an uncaught TypeError at
the first such element — this function, and `findElements` through it, is
fallible. -/
def findElementsByAdvancedAnalysis (description : String) (page : Page) :
    Except String (List Element) :=
  let desc := toLowerStr description
  let textMatches :=
    (forestElems page.dom).filter (fun el => strIncludes (toLowerStr el.text) desc)
  match scanAttrs desc page advancedAttrs with
  | .error e => .error e
  | .ok attrMatches => .ok (textMatches ++ attrMatches)

/-- Strategy 1 of `findElements`: the direct selector.  A missing selector
is never attempted, an invalid one throws inside the source's try/catch and
leaves the result list empty. -/
def strat1 (loc : Locator) (page : Page) : List Element :=
  match loc with
  | .valid _ sels => qsa page sels
  | _ => []

/-- Strategy 2 of `findElements` (guarded by a truthy description). -/
def strat2 (description : Option String) (page : Page) : List Element :=
  match description with
  | some d => findElementsByDescription d page
  | none => []

/-- Strategy 3 of `findElements` (always attempted when reached). -/
def strat3 (description : Option String) (page : Page) : List Element :=
  findElementsByCommonPatterns description page

/-- Strategy 4 of `findElements` (guarded by a truthy description);
fallible because of the property-scan TypeError. -/
def strat4 (description : Option String) (page : Page) :
    Except String (List Element) :=
  match description with
  | some d => findElementsByAdvancedAnalysis d page
  | none => .ok []

/-- Result of `findElements` together with the list of strategies that were
actually attempted, in order.  The result is an `Except` because a thrown
strategy-4 TypeError escapes `findElements` uncaught (only strategy 1 sits
inside a try/catch). -/
structure FindTrace where
  result : Except String (List Element)
  invoked : List Nat

/-- `findElements` (variant 1), instrumented with the strategies invoked.
Strategy k+1 is reached exactly when the previous result list is empty;
strategy 4 additionally requires a truthy description and may throw. -/
def findElementsT (loc : Locator) (description : Option String) (page : Page) :
    FindTrace :=
  let r1 := strat1 loc page
  let t1 : List Nat :=
    match loc with
    | .noSel => []
    | _ => [1]
  if !r1.isEmpty then ⟨.ok r1, t1⟩
  else
    let t2 : List Nat :=
      match description with
      | some _ => t1 ++ [2]
      | none => t1
    let r2 := strat2 description page
    if !r2.isEmpty then ⟨.ok r2, t2⟩
    else
      let r3 := strat3 description page
      let t3 := t2 ++ [3]
      if !r3.isEmpty then ⟨.ok r3, t3⟩
      else
        match description with
        | some d => ⟨findElementsByAdvancedAnalysis d page, t3 ++ [4]⟩
        | none => ⟨.ok [], t3⟩

/-- `findElements` as used by the executor functions: the resolved element
list, or the strategy-4 TypeError propagating out. -/
def findElements (loc : Locator) (description : Option String) (page : Page) :
    Except String (List Element) :=
  (findElementsT loc description page).result

/-- The number of interactable elements in a strategy result (glossary
notion: visible, non-zero area, not pointer-blocked, not disabled). -/
def interactCount (l : List Element) : Nat :=
  (l.filter isElementClickable).length

/-! ## Variant 2 element finding: `findElementIntelligently` -/

/-- Error message of an unguarded `document.querySelector` on an invalid
selector string. -/
def invalidSelErr (s : String) : String :=
  "SyntaxError: Failed to execute querySelector: " ++ s ++ " is not a valid selector"

/-- Error message of `findBySimilarity(null)` calling `startsWith` on a
missing selector. -/
def nullSelErr : String :=
  "TypeError: Cannot read properties of null (reading startsWith)"

/-- Strategy 1 candidate: `document.querySelector(selector)`.  A `null`
selector is coerced to the type selector string and matches nothing; an
invalid selector throws (uncaught in variant 2). -/
def cand1 (loc : Locator) (page : Page) : Except String (Option Element) :=
  match loc with
  | .noSel => .ok none
  | .invalid s => .error (invalidSelErr s)
  | .valid _ sels => .ok (qsa page sels).head?

/-- Strategy 2 candidate: `findByDescription` — the first element in
document order whose text contains the description and which is visible. -/
def cand2 (description : Option String) (page : Page) : Option Element :=
  match description with
  | some d =>
    (forestElems page.dom).find? (fun el =>
      strIncludes el.text d && isElementVisible page el)
  | none => none

/-- Strategy 4 candidate: `findBySimilarity` — loosen an id/class selector
into a substring attribute match; throws on a missing selector string. -/
def cand4 (loc : Locator) (page : Page) : Except String (Option Element) :=
  match locStr loc with
  | none => .error nullSelErr
  | some s =>
    if strStartsWith s "#" then
      .ok (qsa page [.attrContains "id" (strDrop s 1)]).head?
    else if strStartsWith s "." then
      .ok (qsa page [.attrContains "class" (strDrop s 1)]).head?
    else .ok none

/-- Did a candidate yield an interactable element? -/
def hit (page : Page) : Option Element → Bool
  | some el => isElementInteractable page el
  | none => false

/-- Whether strategy 1 of `findElementIntelligently` yields an interactable
element. -/
def candHit1 (loc : Locator) (page : Page) : Bool :=
  match cand1 loc page with
  | .ok c => hit page c
  | .error _ => false

/-- Whether strategy 2 of `findElementIntelligently` yields an interactable
element. -/
def candHit2 (description : Option String) (page : Page) : Bool :=
  hit page (cand2 description page)

/-- Whether strategy 4 of `findElementIntelligently` yields an interactable
element. -/
def candHit4 (loc : Locator) (page : Page) : Bool :=
  match cand4 loc page with
  | .ok c => hit page c
  | .error _ => false

/-- Result of `findElementIntelligently` with the strategies attempted.
Strategy 3 (`findBySemanticContext`, attempted only on a truthy context)
always returns `null` in the source. -/
structure FindOneTrace where
  result : Except String (Option Element)
  invoked : List Nat

/-- `findElementIntelligently` (variant 2), instrumented.  Each strategy's
candidate is accepted only if interactable; strategy 4 is unguarded and
dereferences the selector string. -/
def findElementIntelligentlyT (loc : Locator) (description ctx : Option String)
    (page : Page) : FindOneTrace :=
  match cand1 loc page with
  | .error e => ⟨.error e, [1]⟩
  | .ok c1 =>
    if hit page c1 then ⟨.ok c1, [1]⟩
    else
      let t2 : List Nat :=
        match description with
        | some _ => [1, 2]
        | none => [1]
      let c2 := cand2 description page
      if hit page c2 then ⟨.ok c2, t2⟩
      else
        let t3 : List Nat :=
          match ctx with
          | some _ => t2 ++ [3]
          | none => t2
        match cand4 loc page with
        | .error e => ⟨.error e, t3 ++ [4]⟩
        | .ok c4 =>
          if hit page c4 then ⟨.ok c4, t3 ++ [4]⟩
          else ⟨.ok none, t3 ++ [4]⟩

/-! ## DOM mutation by clicks and value writes -/

/-- The state effect of `element.click()` on the element itself: a checkbox
toggles, a radio becomes checked, anything else keeps its state (page script
reactions are out of scope). -/
def applyClick (el : Element) : Element :=
  if el.typ = "checkbox" then { el with checked := !el.checked }
  else if el.typ = "radio" then { el with checked := true }
  else el

/-- Click the node with the given ref. -/
def clickRef (dom : Forest) (r : Nat) : Forest :=
  mapForest (fun el => if el.ref = r then applyClick el else el) dom

/-- Set the `value` property of the node with the given ref. -/
def setValueRef (dom : Forest) (r : Nat) (v : String) : Forest :=
  mapForest (fun el => if el.ref = r then { el with value := v } else el) dom

/-! ## Variant 1 executor: `performClick`, `performSelect`, `performType` -/

/-- Outcome of one executor primitive: the DOM afterwards, the refs clicked
(in order), the value writes performed, the source's affected-element
counter and the `elementsFound` field of the returned result object. -/
structure ExecOutcome where
  dom : Forest
  clicks : List Nat
  valueWrites : List (Nat × String)
  countAffected : Nat
  elementsFound : Nat

/-- The `No elements found for: ${selector || description}` error text. -/
def noElementsMsg (loc : Locator) (description : Option String) : String :=
  "No elements found for: " ++ ((locStr loc).getD (description.getD "null"))

/-- The per-element loop of `performClick`: scroll into view, then click
only if the element passes `isElementClickable`. -/
def clickLoop : List Element → Forest → List Nat → Nat →
    Forest × List Nat × Nat
  | [], dom, acc, cnt => (dom, acc, cnt)
  | e :: rest, dom, acc, cnt =>
    if isElementClickable e then
      clickLoop rest (clickRef dom e.ref) (acc ++ [e.ref]) (cnt + 1)
    else clickLoop rest dom acc cnt

/-- `performClick` (variant 1): throws when no element resolves, otherwise
clicks every resolved element that is clickable. -/
def performClick (loc : Locator) (description : Option String) (page : Page) :
    Except String ExecOutcome :=
  match findElements loc description page with
  | .error e => .error e
  | .ok els =>
    if els.isEmpty then .error (noElementsMsg loc description)
    else
      let t := clickLoop els page.dom [] 0
      .ok ⟨t.1, t.2.1, [], t.2.2, els.length⟩

/-- The per-element loop of `performSelect`: radio/checkbox elements are
clicked when not already checked (the `checked` property is read from the
live node), `SELECT` elements get the value assigned when one is given; no
interactability check is made. -/
def selectLoop (value : Option String) :
    List Element → Forest → List Nat → List (Nat × String) → Nat →
    Forest × List Nat × List (Nat × String) × Nat
  | [], dom, acc, ws, cnt => (dom, acc, ws, cnt)
  | e :: rest, dom, acc, ws, cnt =>
    if e.typ = "radio" || e.typ = "checkbox" then
      let cur := (lookupRef dom e.ref).getD e
      if !cur.checked then
        selectLoop value rest (clickRef dom e.ref) (acc ++ [e.ref]) ws (cnt + 1)
      else selectLoop value rest dom acc ws cnt
    else if e.tag = "SELECT" then
      match value with
      | some v =>
        selectLoop value rest (setValueRef dom e.ref v) acc (ws ++ [(e.ref, v)]) (cnt + 1)
      | none => selectLoop value rest dom acc ws cnt
    else selectLoop value rest dom acc ws cnt

/-- `performSelect` (variant 1). -/
def performSelect (loc : Locator) (value description : Option String)
    (page : Page) : Except String ExecOutcome :=
  match findElements loc description page with
  | .error e => .error e
  | .ok els =>
    if els.isEmpty then .error (noElementsMsg loc description)
    else
      let (dom, clicks, ws, cnt) := selectLoop value els page.dom [] [] 0
      .ok ⟨dom, clicks, ws, cnt, els.length⟩

/-- The per-element loop of `performType`: any `INPUT`/`TEXTAREA` element
gets the value written; no interactability check is made. -/
def typeLoop (value : String) :
    List Element → Forest → List (Nat × String) → Nat →
    Forest × List (Nat × String) × Nat
  | [], dom, ws, cnt => (dom, ws, cnt)
  | e :: rest, dom, ws, cnt =>
    if e.tag = "INPUT" || e.tag = "TEXTAREA" then
      typeLoop value rest (setValueRef dom e.ref value) (ws ++ [(e.ref, value)]) (cnt + 1)
    else typeLoop value rest dom ws cnt

/-- `performType` (variant 1). -/
def performType (loc : Locator) (value : String) (description : Option String)
    (page : Page) : Except String ExecOutcome :=
  match findElements loc description page with
  | .error e => .error e
  | .ok els =>
    if els.isEmpty then .error (noElementsMsg loc description)
    else
      let (dom, ws, cnt) := typeLoop value els page.dom [] 0
      .ok ⟨dom, [], ws, cnt, els.length⟩

/-! ## `handleQuizQuestions` (variant 1 smart action) -/

/-- Top-level selector of `handleQuizQuestions`. -/
def quizTopSel : List SimpleSel :=
  [.cls "question", .cls "quiz-question", .attrHas "data-question",
   .and (.tag "input") (.attrEq "type" "radio"),
   .and (.tag "input") (.attrEq "type" "checkbox")]

/-- Answer-option selector used inside a question container. -/
def quizOptSel : List SimpleSel :=
  [.and (.tag "input") (.attrEq "type" "radio"),
   .and (.tag "input") (.attrEq "type" "checkbox"),
   .cls "answer-option", .cls "option", .cls "choice"]

/-- Outcome of `handleQuizQuestions`. -/
structure QuizOutcome where
  dom : Forest
  clicks : List Nat
  questionsFound : Nat
  answered : Nat

/-- The main loop of `handleQuizQuestions`: radio/checkbox matches are
clicked when not currently checked; any other match is treated as a question
container whose first answer option is clicked unconditionally. -/
def quizLoop : List Element → Forest → List Nat → Nat →
    Forest × List Nat × Nat
  | [], dom, clicks, answered => (dom, clicks, answered)
  | q :: rest, dom, clicks, answered =>
    if q.typ = "radio" || q.typ = "checkbox" then
      let cur := (lookupRef dom q.ref).getD q
      if !cur.checked then
        quizLoop rest (clickRef dom q.ref) (clicks ++ [q.ref]) (answered + 1)
      else quizLoop rest dom clicks answered
    else
      match findNodeByRef q.ref dom with
      | some (_, ch) =>
        match (qsaFrom ch quizOptSel).head? with
        | some o => quizLoop rest (clickRef dom o.ref) (clicks ++ [o.ref]) (answered + 1)
        | none => quizLoop rest dom clicks answered
      | none => quizLoop rest dom clicks answered

/-- `handleQuizQuestions` (variant 1). -/
def handleQuizQuestions (page : Page) : QuizOutcome :=
  let qs := qsa page quizTopSel
  let (dom, clicks, answered) := quizLoop qs page.dom [] 0
  ⟨dom, clicks, qs.length, answered⟩

/-! ## Error classification (`classifyError`, variant 2) -/

/-- `classifyError`: keyword tests on the lowercased error message, in the
source's order, defaulting to `unknown_error`. -/
def classifyError (msg : String) : String :=
  let m := toLowerStr msg
  if strIncludes m "not found" || strIncludes m "no element" then "element_missing"
  else if strIncludes m "timeout" then "timeout"
  else if strIncludes m "permission" || strIncludes m "access" then "permission_denied"
  else if strIncludes m "network" || strIncludes m "connection" then "network_error"
  else "unknown_error"

/-- The closed set of categories `classifyError` can produce. -/
def errorCategories : List String :=
  ["element_missing", "timeout", "permission_denied", "network_error", "unknown_error"]

/-! ## Recovery engine (`getRecoveryStrategy` / `executeRecovery`) -/

/-- Result object of a recovery strategy. -/
structure RecoveryResult where
  success : Bool
  message : String

/-- A plan step as consumed by variant 2's execution loop (`value`, `text`
and the wait/verification sub-objects play no role in the modelled control
flow and are omitted). -/
structure Step where
  action : String
  selector : Locator
  alternativeSelectors : List Locator
  description : Option String
  optional : Bool

/-- `document.querySelector(loc)` as used by the recovery strategies:
first match, `none` on a missing/unmatched selector, a thrown error on an
invalid one. -/
def qsLoc (page : Page) (loc : Locator) : Except String (Option Element) :=
  match loc with
  | .noSel => .ok none
  | .invalid s => .error (invalidSelErr s)
  | .valid _ sels => .ok (qsa page sels).head?

/-- Try the alternative selectors in order; the first present element wins. -/
def tryAlternatives (page : Page) : List Locator → Except String (Option Element)
  | [] => .ok none
  | a :: rest =>
    match qsLoc page a with
    | .error e => .error e
    | .ok (some el) => .ok (some el)
    | .ok none => tryAlternatives page rest

/-- The `element_missing` recovery strategy: alternatives first, then one
delayed re-resolution of the primary selector against the page as it is
after the wait. -/
def elementMissingRecovery (step : Step) (pageNow pageAfterWait : Page) :
    Except String RecoveryResult :=
  match tryAlternatives pageNow step.alternativeSelectors with
  | .error e => .error e
  | .ok (some _) => .ok ⟨true, "Found element using alternative selector"⟩
  | .ok none =>
    match qsLoc pageAfterWait step.selector with
    | .error e => .error e
    | .ok (some _) => .ok ⟨true, "Element appeared after waiting"⟩
    | .ok none => .ok ⟨false, "Could not find element with any strategy"⟩

/-- Dispatch table of `getRecoveryStrategy`: every category other than
`element_missing` waits and reports failure. -/
def runRecoveryStrategy (cat : String) (step : Step) (pageNow pageAfterWait : Page) :
    Except String RecoveryResult :=
  if cat = "element_missing" then elementMissingRecovery step pageNow pageAfterWait
  else if cat = "timeout" then .ok ⟨false, "Timeout recovery failed"⟩
  else if cat = "permission_denied" then
    .ok ⟨false, "Permission issues cannot be automatically resolved"⟩
  else if cat = "network_error" then .ok ⟨false, "Network error recovery failed"⟩
  else .ok ⟨false, "Unknown error recovery failed"⟩

/-- `executeRecovery`: a throwing strategy is caught and reported as a
failed recovery. -/
def executeRecoveryModel (cat : String) (step : Step) (pageNow pageAfterWait : Page) :
    RecoveryResult :=
  match runRecoveryStrategy cat step pageNow pageAfterWait with
  | .ok r => r
  | .error e => ⟨false, "Recovery failed: " ++ e⟩

/-- `attemptErrorRecovery`: classify once, then run the single strategy for
that category once.  Returns the category and the recovery result. -/
def attemptErrorRecoveryModel (step : Step) (errMsg : String)
    (pageNow pageAfterWait : Page) : String × RecoveryResult :=
  let cat := classifyError errMsg
  (cat, executeRecoveryModel cat step pageNow pageAfterWait)

/-! ## Action history and the execution loop (`executeWithIntelligence`) -/

/-- An entry of `this.actionHistory`.  `stepResult` is the
`{...step, result, timestamp}` record pushed by `executeActionSmart` (the
spec's ActionHistoryEntry); `navigation` and `consoleError` are the
contextual records pushed by the change monitor's `handleUrlChange` and
`handleConsoleError`.  Timestamps are out of scope. -/
inductive HistEntry where
  | stepResult (step : Step) (success : Bool)
  | navigation (fromUrl toUrl : String)
  | consoleError (message : String)

/-- Is an entry an ActionHistoryEntry (`{step, result, timestamp}` shape)? -/
def isStepEntry : HistEntry → Bool
  | .stepResult _ _ => true
  | _ => false

/-- Number of ActionHistoryEntry records in a history list. -/
def countStepEntries (h : List HistEntry) : Nat :=
  h.countP isStepEntry

/-- `handleUrlChange`: appends one navigation record to the history. -/
def handleUrlChangeM (h : List HistEntry) (fromUrl toUrl : String) :
    List HistEntry :=
  h ++ [.navigation fromUrl toUrl]

/-- `handleConsoleError`: appends one error record while a task is running,
unless the message mentions the reasoning API. -/
def handleConsoleErrorM (isRunning : Bool) (h : List HistEntry) (msg : String) :
    List HistEntry :=
  if isRunning && !strIncludes msg "Gemini API" then h ++ [.consoleError msg]
  else h

/-- Where a step's processing fails, if it does.  `preFail` models a throw
in `validateStepPreconditions` (before the history push), `execFail` a throw
inside `executeActionSmart`'s action dispatch (also before the push),
`postFail` a throw in `verifyStepCompletion`/`intelligentWait` (after the
push), and `ok` a fully successful step. -/
inductive StepPhaseOutcome where
  | ok
  | preFail (msg : String)
  | execFail (msg : String)
  | postFail (msg : String)

/-- One step of the plan together with the environment the loop meets while
executing it: the outcome of the (externally driven) DOM interaction, the
page as seen by the recovery engine at failure time and after its wait. -/
structure StepCase where
  step : Step
  outcome : StepPhaseOutcome
  pageAtFailure : Page
  pageAfterWait : Page

/-- Result of running the execution loop. -/
structure RunOut where
  history : List HistEntry
  recoveries : List (Nat × String)
  aborted : Option String

/-- The error text thrown when a mandatory step fails without recovery. -/
def stepFailMsg (st : Step) (m : String) : String :=
  "Failed to execute step: " ++ st.description.getD "step" ++ ". Error: " ++ m

/-- The loop of `executeWithIntelligence` over the plan's steps: a
successful step appends one ActionHistoryEntry; a failing step triggers
exactly one recovery attempt (of exactly its classified category), and, when
the recovery fails on a mandatory step, throws and aborts the remaining
plan.  `recoveries` records one `(step index, category)` pair per recovery
attempt. -/
def runSteps : List StepCase → Nat → List HistEntry → List (Nat × String) → RunOut
  | [], _, h, r => ⟨h, r, none⟩
  | sc :: rest, i, h, r =>
    match sc.outcome with
    | .ok => runSteps rest (i + 1) (h ++ [.stepResult sc.step true]) r
    | .preFail m =>
      let c := attemptErrorRecoveryModel sc.step m sc.pageAtFailure sc.pageAfterWait
      let r2 := r ++ [(i, c.1)]
      if c.2.success || sc.step.optional then runSteps rest (i + 1) h r2
      else ⟨h, r2, some (stepFailMsg sc.step m)⟩
    | .execFail m =>
      let c := attemptErrorRecoveryModel sc.step m sc.pageAtFailure sc.pageAfterWait
      let r2 := r ++ [(i, c.1)]
      if c.2.success || sc.step.optional then runSteps rest (i + 1) h r2
      else ⟨h, r2, some (stepFailMsg sc.step m)⟩
    | .postFail m =>
      let h2 := h ++ [.stepResult sc.step true]
      let c := attemptErrorRecoveryModel sc.step m sc.pageAtFailure sc.pageAfterWait
      let r2 := r ++ [(i, c.1)]
      if c.2.success || sc.step.optional then runSteps rest (i + 1) h2 r2
      else ⟨h2, r2, some (stepFailMsg sc.step m)⟩

/-! ## The orchestrator: `executeTask` -/

/-- The agent's instance state (`this.actionHistory`, `this.isRunning`,
`this.currentTask`). -/
structure AgentState where
  isRunning : Bool
  actionHistory : List HistEntry
  currentTask : Option String

/-- The result object `executeTask` returns to its caller. -/
structure TaskReturn where
  success : Bool
  error : Option String
  report : Option String
  actionsPerformed : List HistEntry

/-- The try/catch/finally scaffold shared by both variants of
`executeTask`: set `isRunning`/`currentTask`, run the body (which may
mutate the state and either return a report or throw), assemble the result
object — the catch path converts a thrown error into a `success := false`
result — and, in `finally`, release `isRunning` and clear the history.
The body is arbitrary: the scaffold guarantees hold for every body. -/
def executeTaskModel (task : String)
    (body : AgentState → Except String String × AgentState)
    (st : AgentState) : TaskReturn × AgentState :=
  let st1 := { st with isRunning := true, currentTask := some task }
  let p := body st1
  let res : TaskReturn :=
    { success := match p.1 with | .ok _ => true | .error _ => false
      error := match p.1 with | .ok _ => none | .error e => some e
      report := match p.1 with | .ok rep => some rep | .error _ => none
      actionsPerformed := p.2.actionHistory }
  (res, { p.2 with isRunning := false, actionHistory := [] })

/-- `executeTask` result extended with the list of phases whose handler was
invoked during the run. -/
structure OrchestratorReturn where
  success : Bool
  error : Option String
  report : Option String
  actionsPerformed : List HistEntry
  phasesRun : List String

/-- Variant 2 `executeTask` as a phase pipeline.  The reasoning-service
phases (analysis, planning, verification) are abstracted as `Except`-valued
inputs; execution runs `runSteps` over the plan.  A throw in any phase is
caught by the surrounding catch, which returns a `success := false` result
carrying the error message and the history accumulated so far — without
invoking the later phases.  The `finally` teardown is applied to the state
on every path. -/
def executeTask2 (task : String) (analysisR : Except String Unit)
    (planR : Except String (List StepCase)) (verifyR : Except String String)
    (st : AgentState) : OrchestratorReturn × AgentState :=
  let st1 := { st with isRunning := true, currentTask := some task }
  let teardown : AgentState → AgentState :=
    fun s => { s with isRunning := false, actionHistory := [] }
  match analysisR with
  | .error e =>
    (⟨false, some e, none, st1.actionHistory, ["analyzing"]⟩, teardown st1)
  | .ok _ =>
    match planR with
    | .error e =>
      (⟨false, some e, none, st1.actionHistory, ["analyzing", "planning"]⟩,
       teardown st1)
    | .ok cases =>
      let run := runSteps cases 0 [] []
      let st2 := { st1 with actionHistory := st1.actionHistory ++ run.history }
      match run.aborted with
      | some e =>
        (⟨false, some e, none, st2.actionHistory,
          ["analyzing", "planning", "executing"]⟩, teardown st2)
      | none =>
        match verifyR with
        | .error e =>
          (⟨false, some e, none, st2.actionHistory,
            ["analyzing", "planning", "executing", "verifying"]⟩, teardown st2)
        | .ok v =>
          (⟨true, none, some v, st2.actionHistory,
            ["analyzing", "planning", "executing", "verifying", "reporting"]⟩,
           teardown st2)

/-! ## JSON values and `JSON.parse` (for the plan parsers)

The plan parsers call the platform's `JSON.parse`; `jsonParse` below is an
executable model of it (objects, arrays, strings with the common escapes,
decimal numbers, literals; numeric exponents and `\u` escapes are not
needed by any input considered here). -/

/-- A JavaScript JSON value.  Numbers are modelled as rationals. -/
inductive JsValue where
  | null
  | bool (b : Bool)
  | num (n : Rat)
  | str (s : String)
  | arr (xs : List JsValue)
  | obj (fields : List (String × JsValue))

/-- JS truthiness of a JSON value (arrays and objects are always truthy). -/
def jsTruthy : JsValue → Bool
  | .null => false
  | .bool b => b
  | .num n => !(n == 0)
  | .str s => !(s == "")
  | .arr _ => true
  | .obj _ => true

/-- Property lookup on an object value (`v.key`); `none` models
`undefined`. -/
def lookupField (v : JsValue) (key : String) : Option JsValue :=
  match v with
  | .obj fields => (fields.find? (fun p => p.1 == key)).map (fun p => p.2)
  | _ => none

/-- The opening brace character. -/
def lbrace : Char := Char.ofNat 123

/-- The closing brace character. -/
def rbrace : Char := Char.ofNat 125

/-- Skip JSON whitespace. -/
def skipWs : List Char → List Char
  | c :: t =>
    if c = ' ' || c = '\n' || c = '\t' || c = '\r' then skipWs t else c :: t
  | [] => []

/-- Parse the remainder of a JSON string literal (after the opening quote),
accumulating characters in reverse. -/
def pStringAux : List Char → List Char → Option (String × List Char)
  | [], _ => none
  | c :: t, acc =>
    if c = '\"' then some (String.mk acc.reverse, t)
    else if c = '\\' then
      match t with
      | [] => none
      | e :: t2 =>
        if e = '\"' then pStringAux t2 ('\"' :: acc)
        else if e = '\\' then pStringAux t2 ('\\' :: acc)
        else if e = '/' then pStringAux t2 ('/' :: acc)
        else if e = 'n' then pStringAux t2 ('\n' :: acc)
        else if e = 't' then pStringAux t2 ('\t' :: acc)
        else if e = 'r' then pStringAux t2 ('\r' :: acc)
        else none
    else pStringAux t (c :: acc)

/-- Digits to a natural number. -/
def digitsToNat (ds : List Char) : Nat :=
  ds.foldl (fun a c => a * 10 + (c.toNat - '0'.toNat)) 0

/-- Parse a JSON number (optional minus, integer part, optional fraction). -/
def pNum (l : List Char) : Option (Rat × List Char) :=
  let (neg, l1) :=
    match l with
    | '-' :: t => (true, t)
    | _ => (false, l)
  let ds := l1.takeWhile Char.isDigit
  let l2 := l1.dropWhile Char.isDigit
  if ds.isEmpty then none
  else
    let intPart : Rat := (digitsToNat ds : Nat)
    let (v, rest) :=
      match l2 with
      | '.' :: t =>
        let fs := t.takeWhile Char.isDigit
        let t2 := t.dropWhile Char.isDigit
        if fs.isEmpty then (intPart, '.' :: t)
        else (intPart + (digitsToNat fs : Rat) / ((10 : Rat) ^ fs.length), t2)
      | _ => (intPart, l2)
    some (if neg then -v else v, rest)

mutual
/-- Parse one JSON value (fuel-based recursion). -/
def pVal : Nat → List Char → Option (JsValue × List Char)
  | 0, _ => none
  | f + 1, l =>
    match skipWs l with
    | [] => none
    | c :: t =>
      if c = '\"' then (pStringAux t []).map (fun p => (.str p.1, p.2))
      else if c = lbrace then
        match skipWs t with
        | d :: t2 =>
          if d = rbrace then some (.obj [], t2)
          else (pFields f (d :: t2)).map (fun p => (.obj p.1, p.2))
        | [] => none
      else if c = '[' then
        match skipWs t with
        | d :: t2 =>
          if d = ']' then some (.arr [], t2)
          else (pElems f (d :: t2)).map (fun p => (.arr p.1, p.2))
        | [] => none
      else if c = 't' then
        if "rue".data.isPrefixOf t then some (.bool true, t.drop 3) else none
      else if c = 'f' then
        if "alse".data.isPrefixOf t then some (.bool false, t.drop 4) else none
      else if c = 'n' then
        if "ull".data.isPrefixOf t then some (.null, t.drop 3) else none
      else if c = '-' || c.isDigit then
        (pNum (c :: t)).map (fun p => (.num p.1, p.2))
      else none

/-- Parse the fields of an object (after the opening brace, first field
upcoming). -/
def pFields : Nat → List Char → Option (List (String × JsValue) × List Char)
  | 0, _ => none
  | f + 1, l =>
    match skipWs l with
    | c :: t =>
      if c = '\"' then
        match pStringAux t [] with
        | none => none
        | some (key, rest) =>
          match skipWs rest with
          | ':' :: rest2 =>
            match pVal f rest2 with
            | none => none
            | some (v, rest3) =>
              match skipWs rest3 with
              | ',' :: rest4 =>
                (pFields f rest4).map (fun p => ((key, v) :: p.1, p.2))
              | d :: rest4 =>
                if d = rbrace then some ([(key, v)], rest4) else none
              | [] => none
          | _ => none
      else none
    | [] => none

/-- Parse the elements of an array (after the opening bracket, first
element upcoming). -/
def pElems : Nat → List Char → Option (List JsValue × List Char)
  | 0, _ => none
  | f + 1, l =>
    match pVal f l with
    | none => none
    | some (v, rest) =>
      match skipWs rest with
      | ',' :: rest2 => (pElems f rest2).map (fun p => (v :: p.1, p.2))
      | ']' :: rest2 => some ([v], rest2)
      | _ => none
end

/-- `JSON.parse`: the whole string must be one JSON value. -/
def jsonParse (s : String) : Option JsValue :=
  match pVal (2 * s.length + 4) s.data with
  | some (v, rest) => if (skipWs rest).isEmpty then some v else none
  | none => none

/-- The index of the first occurrence of a character. -/
def firstIdxAux (c : Char) : List Char → Nat → Option Nat
  | [], _ => none
  | x :: t, i => if x = c then some i else firstIdxAux c t (i + 1)

/-- The regex `\x7b[\s\S]*\x7d` of the plan parsers: greedy match from the
first opening brace to the last closing brace after it. -/
def extractJsonSub (s : String) : Option String :=
  let l := s.data
  match firstIdxAux lbrace l 0, firstIdxAux rbrace l.reverse 0 with
  | some i, some k =>
    let j := l.length - 1 - k
    if i < j then some (String.mk ((l.drop i).take (j - i + 1))) else none
  | _, _ => none

/-- Brace extraction followed by `JSON.parse`; `none` iff the parser's
try-block throws. -/
def extractParse (s : String) : Option JsValue :=
  (extractJsonSub s).bind jsonParse

/-- `parseActionPlanFromText` (variant 1 fallback): one `manual_parse`
action per trimmed, lowercased line mentioning click/select/type;
`confidence` 0.5 and `taskType` "other". -/
def fallbackPlanFromText (text : String) : JsValue :=
  let pick := fun (line : String) =>
    strIncludes line "click" || strIncludes line "select" || strIncludes line "type"
  let lines := (splitOnChar '\n' text).map (fun l => toLowerStr (trimStr l))
  let actions := (lines.filter pick).map (fun line =>
    JsValue.obj [("type", .str "manual_parse"), ("description", .str line),
                 ("selector", .null)])
  .obj [("taskType", .str "other"), ("confidence", .num ((1 : Rat) / 2)),
        ("actions", .arr actions), ("reasoning", .str "Fallback parsing used")]

/-- `parseActionPlan` (variant 1): return the extracted JSON payload as-is
when one parses, otherwise fall back to text parsing.  Never throws for any
string input. -/
def parseActionPlanV1 (aiResponse : String) : JsValue :=
  match extractParse aiResponse with
  | some v => v
  | none => fallbackPlanFromText aiResponse

/-- A well-formed ActionPlan object in the variant 1 schema: it carries an
`actions` array. -/
def wellFormedPlan (v : JsValue) : Bool :=
  match lookupField v "actions" with
  | some (.arr _) => true
  | _ => false

/-- `response.candidates[0].content.parts[0].text` of variant 2's parser;
`none` on any shape deviation (each of which throws inside the try-block in
the source). -/
def getTextContent (r : JsValue) : Option String := do
  let c ← lookupField r "candidates"
  let first ← match c with
    | .arr (x :: _) => some x
    | _ => none
  let content ← lookupField first "content"
  let parts ← lookupField content "parts"
  let p0 ← match parts with
    | .arr (x :: _) => some x
    | _ => none
  match lookupField p0 "text" with
  | some (.str t) => some t
  | _ => none

/-- `planJson.field || default` (JS short-circuit or). -/
def jsOr (v : Option JsValue) (d : JsValue) : JsValue :=
  match v with
  | some x => if jsTruthy x then x else d
  | none => d

/-- The catch-path result of variant 2's `parseActionPlan`. -/
def fallbackPlanV2 (r : JsValue) : JsValue :=
  .obj [("steps", .arr []), ("fallbacks", .obj []),
        ("verificationSteps", .arr []), ("originalResponse", r)]

/-- `parseActionPlan` (variant 2): extract the response text, extract and
parse its JSON payload, and assemble a plan object with defaulted fields;
any throw is caught and produces the empty plan. -/
def parseActionPlanV2 (r : JsValue) : JsValue :=
  match getTextContent r with
  | none => fallbackPlanV2 r
  | some t =>
    match extractParse t with
    | none => fallbackPlanV2 r
    | some planJson =>
      .obj [("steps", jsOr (lookupField planJson "steps") (.arr [])),
            ("fallbacks", jsOr (lookupField planJson "fallbacks") (.obj [])),
            ("verificationSteps",
             jsOr (lookupField planJson "verificationSteps") (.arr [])),
            ("originalResponse", .str t)]

/-- The shape invariant of variant 2's parser output: all four plan fields
are present. -/
def hasPlanFields (v : JsValue) : Bool :=
  (lookupField v "steps").isSome && (lookupField v "fallbacks").isSome &&
  (lookupField v "verificationSteps").isSome &&
  (lookupField v "originalResponse").isSome

/-! ## Concrete example inputs used by the witnesses and counterexamples -/

/-- A page with no elements at all. -/
def emptyPage : Page :=
  { hostname := "example.com", innerWidth := 1000, innerHeight := 800, dom := .nil }

/-- A history entry recording that an `executeTask` body actually ran. -/
def probeEntry : HistEntry := .consoleError "body ran"

/-- An `executeTask` body that mutates the action history and succeeds —
standing for a full analysis/planning/execution pipeline run. -/
def probeBody : AgentState → Except String String × AgentState :=
  fun s => (.ok "body ran", { s with actionHistory := s.actionHistory ++ [probeEntry] })

/-- An agent state in which a task is already running. -/
def busyState : AgentState :=
  { isRunning := true, actionHistory := [], currentTask := some "previous task" }

/-- The idle agent state after construction. -/
def initState : AgentState :=
  { isRunning := false, actionHistory := [], currentTask := none }

/-- An unchecked checkbox that is display-suppressed and zero-area, hence
not interactable. -/
def hiddenBox : Element :=
  { ref := 1, tag := "INPUT", typ := "checkbox", idAttr := "",
    className := "hidden-box", attrs := [], text := "", value := "",
    checked := false, disabled := false, display := "none",
    visibility := "visible", pointerEvents := "auto",
    width := 0, height := 0, top := 0, left := 0 }

/-- A page containing only the hidden checkbox. -/
def hiddenPage : Page :=
  { hostname := "example.com", innerWidth := 1000, innerHeight := 800,
    dom := .node hiddenBox .nil .nil }

/-- The selector string `.hidden-box` with its parse. -/
def hiddenLoc : Locator := .valid ".hidden-box" [SimpleSel.cls "hidden-box"]

/-- A perfectly clickable button. -/
def btnEl : Element :=
  { ref := 5, tag := "BUTTON", typ := "", idAttr := "", className := "cta",
    attrs := [], text := "Go", value := "", checked := false, disabled := false,
    display := "block", visibility := "visible", pointerEvents := "auto",
    width := 80, height := 24, top := 10, left := 10 }

/-- A page containing only the button. -/
def btnPage : Page :=
  { hostname := "example.com", innerWidth := 1000, innerHeight := 800,
    dom := .node btnEl .nil .nil }

/-- The selector string `.cta` with its parse. -/
def btnLoc : Locator := .valid ".cta" [SimpleSel.cls "cta"]

/-- The outcome `performClick` computes on `btnPage`. -/
def btnOutcome : ExecOutcome :=
  { dom := .node btnEl .nil .nil, clicks := [5], valueWrites := [],
    countAffected := 1, elementsFound := 1 }

/-- A quiz question container (class `question`). -/
def quizContainer : Element :=
  { ref := 0, tag := "DIV", typ := "", idAttr := "", className := "question",
    attrs := [], text := "", value := "", checked := false, disabled := false,
    display := "block", visibility := "visible", pointerEvents := "auto",
    width := 100, height := 100, top := 0, left := 0 }

/-- An answer checkbox that is already checked (already in its target
state). -/
def checkedBox : Element :=
  { ref := 1, tag := "INPUT", typ := "checkbox", idAttr := "", className := "",
    attrs := [], text := "", value := "", checked := true, disabled := false,
    display := "block", visibility := "visible", pointerEvents := "auto",
    width := 20, height := 20, top := 0, left := 0 }

/-- A quiz page: one question container whose only answer option is the
already-checked checkbox. -/
def quizPage : Page :=
  { hostname := "example.com", innerWidth := 1000, innerHeight := 800,
    dom := .node quizContainer (.node checkedBox .nil .nil) .nil }

/-- A mandatory click step whose selector matches nothing and which has no
alternative selectors. -/
def missingStep : Step :=
  { action := "click", selector := .valid "#missing" [SimpleSel.idSel "missing"],
    alternativeSelectors := [], description := some "click the missing control",
    optional := false }

/-- The environment of the failing step: the action dispatch throws an
element-not-found error, and the element never appears. -/
def failingCase : StepCase :=
  { step := missingStep,
    outcome := .execFail "Element not found for click: #missing",
    pageAtFailure := emptyPage, pageAfterWait := emptyPage }

/-- An ordinary element carrying an `aria-label` attribute — enough to make
the advanced-analysis attribute scan dereference an undefined property. -/
def ariaEl : Element :=
  { ref := 7, tag := "DIV", typ := "", idAttr := "", className := "",
    attrs := [("aria-label", "menu toggle")], text := "", value := "",
    checked := false, disabled := false, display := "block",
    visibility := "visible", pointerEvents := "auto",
    width := 30, height := 30, top := 0, left := 0 }

/-- A page containing only the `aria-label`'d element. -/
def ariaPage : Page :=
  { hostname := "example.com", innerWidth := 1000, innerHeight := 800,
    dom := .node ariaEl .nil .nil }

/-! # Theorems settling the claims -/

/-- Claim C1 (counterexample): a call to `executeTask` made while
`isRunning` is already `true` is *not* rejected — the run proceeds exactly
as from an idle state: it executes the task body, mutates the action
history, and returns a success result, contradicting the claimed
synchronous rejection. -/
theorem C1_counterexample :
    busyState.isRunning = true ∧
    (executeTaskModel "second task" probeBody busyState).1.success = true ∧
    (executeTaskModel "second task" probeBody busyState).1.error = none ∧
    (executeTaskModel "second task" probeBody busyState).1.actionsPerformed
      = [probeEntry] :=
  ⟨rfl, rfl, rfl, rfl⟩

/-- Claim C1 (amended): `executeTask` performs no check of `isRunning` at
all.  It unconditionally overwrites `isRunning` and `currentTask` on entry
and runs its body, so its result and final state are identical for every
prior value of the flag — mutual exclusion is not enforced by this code. -/
theorem C1_amended_no_guard (task : String)
    (body : AgentState → Except String String × AgentState)
    (st : AgentState) (b : Bool) (c : Option String) :
    executeTaskModel task body { st with isRunning := b, currentTask := c } =
      executeTaskModel task body st :=
  rfl

/-- Claim C5 (code bug): an already-checked checkbox answer option *is*
clicked by `handleQuizQuestions`.  On `quizPage` — one `.question`
container whose first answer option is the checked checkbox (ref 1) — the
container branch clicks the checked option unconditionally (unchecking it),
and the direct input branch then clicks it again: two clicks on an
already-correct binary control, where the claim requires zero. -/
theorem C5_quiz_reclick :
    checkedBox.checked = true ∧
    (handleQuizQuestions quizPage).clicks = [1, 1] ∧
    (handleQuizQuestions quizPage).answered = 2 :=
  ⟨rfl, rfl, rfl⟩

/-- Claim C6: the try/catch/finally scaffold of `executeTask` guarantees
teardown on every exit path: for every task body (returning or throwing)
and every prior state, the final state has `isRunning = false` and an empty
action history, while the returned result still carries the history as it
stood when the body finished. -/
theorem C6_teardown (task : String)
    (body : AgentState → Except String String × AgentState) (st : AgentState) :
    (executeTaskModel task body st).2.isRunning = false ∧
    (executeTaskModel task body st).2.actionHistory = [] ∧
    (executeTaskModel task body st).1.actionsPerformed =
      (body { st with isRunning := true, currentTask := some task }).2.actionHistory :=
  ⟨rfl, rfl, rfl⟩

/-- Claim C2 (counterexample): a plan whose single mandatory step fails with
an unrecoverable element-not-found error does *not* reach the verification
or reporting phase.  The orchestrator's catch converts the throw into a
`success := false` result with no report; `phasesRun` stops at
`executing`. -/
theorem C2_counterexample :
    missingStep.optional = false ∧
    (executeTask2 "fill the form" (.ok ()) (.ok [failingCase]) (.ok "verified")
      initState).1.success = false ∧
    (executeTask2 "fill the form" (.ok ()) (.ok [failingCase]) (.ok "verified")
      initState).1.report = none ∧
    (executeTask2 "fill the form" (.ok ()) (.ok [failingCase]) (.ok "verified")
      initState).1.phasesRun = ["analyzing", "planning", "executing"] ∧
    ((executeTask2 "fill the form" (.ok ()) (.ok [failingCase]) (.ok "verified")
      initState).1.phasesRun.contains "verifying") = false ∧
    (executeTask2 "fill the form" (.ok ()) (.ok [failingCase]) (.ok "verified")
      initState).1.error.isSome = true :=
  ⟨rfl, rfl, rfl, rfl, rfl, rfl⟩

/-- Claim C2 (amended): when a mandatory step fails and its recovery is
unsuccessful, `executeWithIntelligence` throws; `executeTask` catches the
throw one level up and returns a structured result `{success := false,
error, actionsPerformed := accumulated history}` — it does *not* proceed to
the verification or reporting phases and produces no graded report. -/
theorem C2_amended (task : String) (vR : Except String String)
    (cases : List StepCase) (st : AgentState) (e : String)
    (h : (runSteps cases 0 [] []).aborted = some e) :
    (executeTask2 task (.ok ()) (.ok cases) vR st).1.success = false ∧
    (executeTask2 task (.ok ()) (.ok cases) vR st).1.error = some e ∧
    (executeTask2 task (.ok ()) (.ok cases) vR st).1.report = none ∧
    (executeTask2 task (.ok ()) (.ok cases) vR st).1.phasesRun =
      ["analyzing", "planning", "executing"] ∧
    (executeTask2 task (.ok ()) (.ok cases) vR st).1.actionsPerformed =
      st.actionHistory ++ (runSteps cases 0 [] []).history := by
  simp only [executeTask2, h]
  simp

/-- Claim C2 (witness for the amended theorem): the amended behaviour at
the concrete failing plan. -/
theorem C2_witness :
    (runSteps [failingCase] 0 [] []).aborted =
      some (stepFailMsg missingStep "Element not found for click: #missing") ∧
    (executeTask2 "t" (.ok ()) (.ok [failingCase]) (.ok "v") initState).1.success
      = false ∧
    (executeTask2 "t" (.ok ()) (.ok [failingCase]) (.ok "v") initState).1.phasesRun
      = ["analyzing", "planning", "executing"] :=
  ⟨rfl,
   (C2_amended "t" (.ok "v") [failingCase] initState _ rfl).1,
   (C2_amended "t" (.ok "v") [failingCase] initState _ rfl).2.2.2.1⟩

/-- Every ref in the click log produced by `performClick`'s loop either was
in the accumulator already or belongs to a clickable element of the work
list. -/
theorem clickLoop_mem (els : List Element) :
    ∀ (dom : Forest) (acc : List Nat) (cnt : Nat) (r : Nat),
      r ∈ (clickLoop els dom acc cnt).2.1 →
      r ∈ acc ∨ ∃ e, e ∈ els ∧ e.ref = r ∧ isElementClickable e = true := by
  induction els with
  | nil =>
    intro dom acc cnt r h
    simp only [clickLoop] at h
    exact Or.inl h
  | cons e rest ih =>
    intro dom acc cnt r h
    simp only [clickLoop] at h
    by_cases hc : isElementClickable e = true
    · rw [if_pos hc] at h
      rcases ih _ _ _ r h with h2 | ⟨e2, he2, hr2, hc2⟩
      · rcases List.mem_append.mp h2 with h3 | h3
        · exact Or.inl h3
        · refine Or.inr ⟨e, List.mem_cons_self e rest, ?_, hc⟩
          have h4 : r = e.ref := by simpa using h3
          exact h4.symm
      · exact Or.inr ⟨e2, List.mem_cons_of_mem e he2, hr2, hc2⟩
    · rw [if_neg hc] at h
      rcases ih _ _ _ r h with h2 | ⟨e2, he2, hr2, hc2⟩
      · exact Or.inl h2
      · exact Or.inr ⟨e2, List.mem_cons_of_mem e he2, hr2, hc2⟩

/-- Claim C3 (amended): only `performClick` enforces the interactability
precondition — every element it clicks passes `isElementClickable`;
`performSelect` and `performType` check only the control's type/tag and act
regardless of interactability (see the counterexample). -/
theorem C3_amended (loc : Locator) (description : Option String) (page : Page)
    (out : ExecOutcome) (h : performClick loc description page = .ok out) :
    ∀ r ∈ out.clicks, ∃ els e, findElements loc description page = .ok els ∧
      e ∈ els ∧ e.ref = r ∧ isElementClickable e = true := by
  intro r hr
  unfold performClick at h
  cases hf : findElements loc description page with
  | error e => rw [hf] at h; cases h
  | ok els =>
    rw [hf] at h
    by_cases he : els.isEmpty
    · simp only [he, if_true] at h
      cases h
    · simp only [he, if_false, Bool.false_eq_true] at h
      cases h
      rcases clickLoop_mem els page.dom [] 0 r hr with h2 | h2
      · cases h2
      · rcases h2 with ⟨e2, he2, hr2, hcl⟩
        exact ⟨els, e2, rfl, he2, hr2, hcl⟩

/-- Claim C3 (witness for the amended theorem): applying it to a page with
one clickable button, which `performClick` clicks. -/
theorem C3_witness :
    ∃ els e, findElements btnLoc none btnPage = .ok els ∧ e ∈ els ∧
      e.ref = 5 ∧ isElementClickable e = true :=
  C3_amended btnLoc none btnPage btnOutcome rfl 5 (by simp [btnOutcome])

/-- Claim C3 (counterexample): `performSelect` clicks a not-interactable
element.  `hiddenBox` is display-suppressed and zero-area (so not
clickable/interactable), yet `performSelect` on a selector resolving to it
clicks it and toggles its checked state. -/
theorem C3_counterexample :
    isElementClickable hiddenBox = false ∧
    (performSelect hiddenLoc none none hiddenPage).map (fun o => o.clicks)
      = .ok [1] ∧
    (performSelect hiddenLoc none none hiddenPage).map
      (fun o => (lookupRef o.dom 1).map (fun e => e.checked)) = .ok (some true) :=
  ⟨rfl, rfl, rfl⟩

/-- Claim C9: `classifyError` is a total function into the closed category
set: every message maps to exactly one of the five produced category
strings, determined by substring tests on the lowercased message in the
source's order ('not found'/'no element' → element_missing, 'timeout' →
timeout, 'permission'/'access' → permission_denied, 'network'/'connection'
→ network_error) with unknown as the default. -/
theorem C9_classifier_total (msg : String) :
    classifyError msg ∈ errorCategories ∧
    ((strIncludes (toLowerStr msg) "not found" ||
        strIncludes (toLowerStr msg) "no element") = true →
      classifyError msg = "element_missing") ∧
    ((strIncludes (toLowerStr msg) "not found" ||
        strIncludes (toLowerStr msg) "no element") = false →
      strIncludes (toLowerStr msg) "timeout" = true →
      classifyError msg = "timeout") ∧
    ((strIncludes (toLowerStr msg) "not found" ||
        strIncludes (toLowerStr msg) "no element") = false →
      strIncludes (toLowerStr msg) "timeout" = false →
      (strIncludes (toLowerStr msg) "permission" ||
        strIncludes (toLowerStr msg) "access") = true →
      classifyError msg = "permission_denied") ∧
    ((strIncludes (toLowerStr msg) "not found" ||
        strIncludes (toLowerStr msg) "no element") = false →
      strIncludes (toLowerStr msg) "timeout" = false →
      (strIncludes (toLowerStr msg) "permission" ||
        strIncludes (toLowerStr msg) "access") = false →
      (strIncludes (toLowerStr msg) "network" ||
        strIncludes (toLowerStr msg) "connection") = true →
      classifyError msg = "network_error") ∧
    ((strIncludes (toLowerStr msg) "not found" ||
        strIncludes (toLowerStr msg) "no element") = false →
      strIncludes (toLowerStr msg) "timeout" = false →
      (strIncludes (toLowerStr msg) "permission" ||
        strIncludes (toLowerStr msg) "access") = false →
      (strIncludes (toLowerStr msg) "network" ||
        strIncludes (toLowerStr msg) "connection") = false →
      classifyError msg = "unknown_error") := by
  refine ⟨?_, ?_, ?_, ?_, ?_, ?_⟩
  · simp only [classifyError, errorCategories]
    split_ifs <;> simp
  · intro h1; simp [classifyError, h1]
  · intro h1 h2; simp [classifyError, h1, h2]
  · intro h1 h2 h3; simp [classifyError, h1, h2, h3]
  · intro h1 h2 h3 h4; simp [classifyError, h1, h2, h3, h4]
  · intro h1 h2 h3 h4; simp [classifyError, h1, h2, h3, h4]

/-- Claim C9 (witness): the theorem applied to a concrete network error
message. -/
theorem C9_witness :
    classifyError "Connection lost" = "network_error" ∧
    classifyError "Connection lost" ∈ errorCategories :=
  ⟨(C9_classifier_total "Connection lost").2.2.2.2.1 rfl rfl rfl rfl,
   (C9_classifier_total "Connection lost").1⟩

/-- Claim C10: classification precedence — when a message matches the
keywords of several categories, the earliest test in `classifyError`'s
fixed order decides: element_missing keywords beat timeout, which beats
permission/access, which beats network/connection. -/
theorem C10_precedence (msg : String) :
    (strIncludes (toLowerStr msg) "not found" = true →
      strIncludes (toLowerStr msg) "timeout" = true →
      classifyError msg = "element_missing") ∧
    (strIncludes (toLowerStr msg) "not found" = true →
      (strIncludes (toLowerStr msg) "permission" ||
        strIncludes (toLowerStr msg) "access") = true →
      classifyError msg = "element_missing") ∧
    (strIncludes (toLowerStr msg) "no element" = true →
      (strIncludes (toLowerStr msg) "network" ||
        strIncludes (toLowerStr msg) "connection") = true →
      classifyError msg = "element_missing") ∧
    ((strIncludes (toLowerStr msg) "not found" ||
        strIncludes (toLowerStr msg) "no element") = false →
      strIncludes (toLowerStr msg) "timeout" = true →
      (strIncludes (toLowerStr msg) "permission" ||
        strIncludes (toLowerStr msg) "access") = true →
      classifyError msg = "timeout") ∧
    ((strIncludes (toLowerStr msg) "not found" ||
        strIncludes (toLowerStr msg) "no element") = false →
      strIncludes (toLowerStr msg) "timeout" = false →
      (strIncludes (toLowerStr msg) "permission" ||
        strIncludes (toLowerStr msg) "access") = true →
      (strIncludes (toLowerStr msg) "network" ||
        strIncludes (toLowerStr msg) "connection") = true →
      classifyError msg = "permission_denied") := by
  refine ⟨?_, ?_, ?_, ?_, ?_⟩
  · intro h1 _; simp [classifyError, h1]
  · intro h1 _; simp [classifyError, h1]
  · intro h1 _; simp [classifyError, h1]
  · intro h1 h2 _; simp [classifyError, h1, h2]
  · intro h1 h2 h3 _; simp [classifyError, h1, h2, h3]

/-- Claim C10 (witness): a message containing both 'not found' and
'timeout' is classified element_missing, per the precedence theorem. -/
theorem C10_witness :
    classifyError "Timeout: element not found" = "element_missing" :=
  (C10_precedence "Timeout: element not found").1 rfl rfl

/-- The execution loop appends at most one ActionHistoryEntry per plan
step. -/
theorem runSteps_countStep (cases : List StepCase) :
    ∀ (i : Nat) (h : List HistEntry) (r : List (Nat × String)),
      countStepEntries (runSteps cases i h r).history ≤
        countStepEntries h + cases.length := by
  induction cases with
  | nil => intro i h r; simp [runSteps]
  | cons sc rest ih =>
    intro i h r
    have happ : ∀ st : Step, countStepEntries (h ++ [HistEntry.stepResult st true])
        = countStepEntries h + 1 := by
      intro st
      simp [countStepEntries, List.countP_append, isStepEntry, List.countP_cons]
    obtain ⟨st, oc, p1, p2⟩ := sc
    cases oc with
    | ok =>
      simp only [runSteps]
      have h1 := ih (i + 1) (h ++ [HistEntry.stepResult st true]) r
      rw [happ] at h1
      simp only [List.length_cons]
      omega
    | preFail m =>
      simp only [runSteps]
      split
      · have h1 := ih (i + 1) h
          (r ++ [(i, (attemptErrorRecoveryModel st m p1 p2).1)])
        simp only [List.length_cons]
        omega
      · simp only [RunOut.history, List.length_cons]
        omega
    | execFail m =>
      simp only [runSteps]
      split
      · have h1 := ih (i + 1) h
          (r ++ [(i, (attemptErrorRecoveryModel st m p1 p2).1)])
        simp only [List.length_cons]
        omega
      · simp only [RunOut.history, List.length_cons]
        omega
    | postFail m =>
      simp only [runSteps]
      split
      · have h1 := ih (i + 1) (h ++ [HistEntry.stepResult st true])
          (r ++ [(i, (attemptErrorRecoveryModel st m p1 p2).1)])
        rw [happ] at h1
        simp only [List.length_cons]
        omega
      · simp only [RunOut.history, List.length_cons]
        rw [happ]
        omega

/-- The recovery log grows by a suffix of strictly increasing step indices,
all at least the current index: at most one recovery attempt is made per
step. -/
theorem runSteps_recov (cases : List StepCase) :
    ∀ (i : Nat) (h : List HistEntry) (r : List (Nat × String)),
      ∃ δ, (runSteps cases i h r).recoveries = r ++ δ ∧
        (∀ p ∈ δ, i ≤ p.1) ∧
        List.Pairwise (fun a b : Nat × String => a.1 < b.1) δ := by
  induction cases with
  | nil =>
    intro i h r
    exact ⟨[], by simp [runSteps], by simp, List.Pairwise.nil⟩
  | cons sc rest ih =>
    intro i h r
    have consCase : ∀ (h2 : List HistEntry) (cat : String),
        (∃ δ2, (runSteps rest (i + 1) h2 (r ++ [(i, cat)])).recoveries
            = (r ++ [(i, cat)]) ++ δ2 ∧
          (∀ p ∈ δ2, i + 1 ≤ p.1) ∧
          List.Pairwise (fun a b : Nat × String => a.1 < b.1) δ2) →
        ∃ δ, (runSteps rest (i + 1) h2 (r ++ [(i, cat)])).recoveries
            = r ++ δ ∧
          (∀ p ∈ δ, i ≤ p.1) ∧
          List.Pairwise (fun a b : Nat × String => a.1 < b.1) δ := by
      rintro h2 cat ⟨δ2, hδ, hge, hpw⟩
      refine ⟨(i, cat) :: δ2, ?_, ?_, ?_⟩
      · simpa [List.append_assoc] using hδ
      · intro p hp
        rcases List.mem_cons.mp hp with h3 | h3
        · simp [h3]
        · exact Nat.le_of_succ_le (hge p h3)
      · exact List.pairwise_cons.mpr
          ⟨fun p hp => Nat.lt_of_succ_le (hge p hp), hpw⟩
    obtain ⟨st, oc, p1, p2⟩ := sc
    cases oc with
    | ok =>
      simp only [runSteps]
      rcases ih (i + 1) (h ++ [HistEntry.stepResult st true]) r
        with ⟨δ, hδ, hge, hpw⟩
      exact ⟨δ, hδ, fun p hp => Nat.le_of_succ_le (hge p hp), hpw⟩
    | preFail m =>
      simp only [runSteps]
      split
      · exact consCase h (attemptErrorRecoveryModel st m p1 p2).1
          (ih (i + 1) h (r ++ [(i, (attemptErrorRecoveryModel st m p1 p2).1)]))
      · exact ⟨[(i, (attemptErrorRecoveryModel st m p1 p2).1)], by simp,
          by simp, by simp⟩
    | execFail m =>
      simp only [runSteps]
      split
      · exact consCase h (attemptErrorRecoveryModel st m p1 p2).1
          (ih (i + 1) h (r ++ [(i, (attemptErrorRecoveryModel st m p1 p2).1)]))
      · exact ⟨[(i, (attemptErrorRecoveryModel st m p1 p2).1)], by simp,
          by simp, by simp⟩
    | postFail m =>
      simp only [runSteps]
      split
      · exact consCase (h ++ [HistEntry.stepResult st true])
          (attemptErrorRecoveryModel st m p1 p2).1
          (ih (i + 1) (h ++ [HistEntry.stepResult st true])
            (r ++ [(i, (attemptErrorRecoveryModel st m p1 p2).1)]))
      · exact ⟨[(i, (attemptErrorRecoveryModel st m p1 p2).1)], by simp,
          by simp, by simp⟩

/-- A list of pairs with strictly increasing first components contains any
given `(index, category)` pair at most once. -/
theorem pairwise_countP_le_one (δ : List (Nat × String)) (j : Nat) (c : String)
    (hpw : List.Pairwise (fun a b : Nat × String => a.1 < b.1) δ) :
    δ.countP (fun p => p.1 == j && p.2 == c) ≤ 1 := by
  induction δ with
  | nil => simp
  | cons a t ih =>
    rcases List.pairwise_cons.mp hpw with ⟨ha, ht⟩
    rw [List.countP_cons]
    by_cases haj : a.1 = j
    · have hzero : t.countP (fun p => p.1 == j && p.2 == c) = 0 := by
        apply List.countP_eq_zero.mpr
        intro p hp
        have : j < p.1 := haj ▸ ha p hp
        simp only [Bool.and_eq_true, beq_iff_eq]
        rintro ⟨h1, -⟩
        omega
      rw [hzero]
      split <;> simp
    · have : (a.1 == j && a.2 == c) = false := by
        simp only [Bool.and_eq_false_iff, beq_eq_false_iff_ne, ne_eq]
        exact Or.inl haj
      rw [this]
      simpa using ih ht

/-- Claim C7: bounded history and bounded recovery.  Over any executed
plan, the number of ActionHistoryEntry records (the `{step, result,
timestamp}` records of `executeActionSmart`) is at most the number of plan
steps times (1 + the per-step recovery bound 1); each step undergoes at
most one recovery attempt, hence at most one per error category; and the
change monitor's `handleUrlChange`/`handleConsoleError` append only
contextual records, never ActionHistoryEntry records. -/
theorem C7_bounded_history (cases : List StepCase) :
    countStepEntries (runSteps cases 0 [] []).history ≤ cases.length * (1 + 1) ∧
    (∀ (i : Nat) (c : String),
      (runSteps cases 0 [] []).recoveries.countP
        (fun p => p.1 == i && p.2 == c) ≤ 1) ∧
    (∀ (h : List HistEntry) (u v : String),
      countStepEntries (handleUrlChangeM h u v) = countStepEntries h) ∧
    (∀ (b : Bool) (h : List HistEntry) (m : String),
      countStepEntries (handleConsoleErrorM b h m) = countStepEntries h) := by
  refine ⟨?_, ?_, ?_, ?_⟩
  · have := runSteps_countStep cases 0 [] []
    have h0 : countStepEntries ([] : List HistEntry) = 0 := rfl
    omega
  · intro i c
    rcases runSteps_recov cases 0 [] [] with ⟨δ, hδ, -, hpw⟩
    rw [hδ]
    simpa using pairwise_countP_le_one δ i c hpw
  · intro h u v
    simp [handleUrlChangeM, countStepEntries, List.countP_append, isStepEntry]
  · intro b h m
    unfold handleConsoleErrorM
    split
    · simp [countStepEntries, List.countP_append, isStepEntry]
    · rfl

/-- Claim C8 (counterexample): on a response whose brace-delimited substring
parses as JSON of the wrong shape, `parseActionPlan` (variant 1) returns the
parsed value unvalidated — the result has no `actions` list at all, so it is
not a well-formed ActionPlan object. -/
theorem C8_counterexample :
    wellFormedPlan (parseActionPlanV1 "\x7b\"foo\": 1\x7d") = false ∧
    (lookupField (parseActionPlanV1 "\x7b\"foo\": 1\x7d") "actions").isSome
      = false ∧
    (extractParse "\x7b\"foo\": 1\x7d").isSome = true :=
  ⟨rfl, rfl, rfl⟩

/-- Claim C8 (amended): plan parsing never throws for any response text.
When no brace-delimited substring parses as JSON (including free-form
sentences with no braces), variant 1 returns the well-formed fallback plan
(confidence 0.5, a possibly-empty `manual_parse` action list); when the
substring does parse, the raw JSON value is returned without shape
validation and need not be a well-formed ActionPlan.  Variant 2's parser
always returns an object carrying all four plan fields (`steps` defaulting
to the empty list). -/
theorem C8_amended (s : String) (r : JsValue) :
    (extractParse s = none → parseActionPlanV1 s = fallbackPlanFromText s) ∧
    (∀ v, extractParse s = some v → parseActionPlanV1 s = v) ∧
    wellFormedPlan (fallbackPlanFromText s) = true ∧
    lookupField (fallbackPlanFromText s) "confidence"
      = some (.num ((1 : Rat) / 2)) ∧
    hasPlanFields (parseActionPlanV2 r) = true := by
  refine ⟨?_, ?_, ?_, ?_, ?_⟩
  · intro h; simp [parseActionPlanV1, h]
  · intro v h; simp [parseActionPlanV1, h]
  · rfl
  · rfl
  · unfold parseActionPlanV2
    cases hg : getTextContent r with
    | none => rfl
    | some t =>
      cases hp : extractParse t with
      | none => simp only [hp]; rfl
      | some planJson => simp only [hp]; rfl

/-- Claim C8 (witness for the amended theorem): a free-form non-JSON
response yields the well-formed fallback plan with one parsed manual
action. -/
theorem C8_witness :
    parseActionPlanV1 "please click the button"
      = fallbackPlanFromText "please click the button" ∧
    wellFormedPlan (parseActionPlanV1 "please click the button") = true :=
  ⟨(C8_amended "please click the button" JsValue.null).1 rfl,
   by
    rw [(C8_amended "please click the button" JsValue.null).1 rfl]
    exact (C8_amended "please click the button" JsValue.null).2.2.1⟩

/-- An empty strategy result contains no interactable element. -/
theorem interactCount_of_isEmpty (l : List Element) (h : l.isEmpty = true) :
    interactCount l = 0 := by
  rw [List.isEmpty_iff] at h
  subst h
  rfl

/-- Claim C4 (amended): the resolver fallback-order invariant holds for
both resolvers — a later strategy is invoked only when every earlier
strategy produced zero (interactable) results — but neither resolver
guarantees an empty result on total miss.  `findElements` returns the
empty list on a total miss only when the strategy-4 attribute scan
completes (an invalid direct selector is caught in strategy 1); when the
page contains an element whose scanned attribute does not reflect as a JS
property (notably any `aria-label`), the scan's `el[attr].toLowerCase()`
throws an uncaught TypeError which `findElements` propagates.
`findElementIntelligently` accepts a strategy candidate only if
interactable and returns null on total miss when the step carries a
selector string; but when the selector is absent (`null`), its similarity
strategy dereferences the null selector, so that total miss also escapes
as a thrown TypeError (see the counterexample). -/
theorem C4_amended (loc : Locator) (desc ctx : Option String) (page : Page) :
    (2 ∈ (findElementsT loc desc page).invoked →
      interactCount (strat1 loc page) = 0) ∧
    (3 ∈ (findElementsT loc desc page).invoked →
      interactCount (strat1 loc page) = 0 ∧
      interactCount (strat2 desc page) = 0) ∧
    (4 ∈ (findElementsT loc desc page).invoked →
      interactCount (strat1 loc page) = 0 ∧
      interactCount (strat2 desc page) = 0 ∧
      interactCount (strat3 desc page) = 0) ∧
    (strat1 loc page = [] → strat2 desc page = [] → strat3 desc page = [] →
      strat4 desc page = .ok [] →
      (findElementsT loc desc page).result = .ok []) ∧
    (∀ e, strat1 loc page = [] → strat2 desc page = [] →
      strat3 desc page = [] → strat4 desc page = .error e →
      (findElementsT loc desc page).result = .error e) ∧
    (2 ∈ (findElementIntelligentlyT loc desc ctx page).invoked →
      candHit1 loc page = false) ∧
    (3 ∈ (findElementIntelligentlyT loc desc ctx page).invoked →
      candHit1 loc page = false ∧ candHit2 desc page = false) ∧
    (4 ∈ (findElementIntelligentlyT loc desc ctx page).invoked →
      candHit1 loc page = false ∧ candHit2 desc page = false) ∧
    (∀ (s : String) (sels : List SimpleSel),
      candHit1 (.valid s sels) page = false → candHit2 desc page = false →
      candHit4 (.valid s sels) page = false →
      (findElementIntelligentlyT (.valid s sels) desc ctx page).result
        = .ok none) ∧
    (candHit2 desc page = false →
      (findElementIntelligentlyT .noSel desc ctx page).result
        = .error nullSelErr) := by
  refine ⟨?_, ?_, ?_, ?_, ?_, ?_, ?_, ?_, ?_, ?_⟩
  · -- strategy 2 runs only when strategy 1 produced nothing
    intro hm
    by_cases e1 : (strat1 loc page).isEmpty
    · exact interactCount_of_isEmpty _ e1
    · exfalso
      simp only [findElementsT, e1] at hm
      simp only [Bool.not_false, if_true] at hm
      cases loc <;> simp at hm
  · -- strategy 3 runs only when strategies 1 and 2 produced nothing
    intro hm
    by_cases e1 : (strat1 loc page).isEmpty
    · by_cases e2 : (strat2 desc page).isEmpty
      · exact ⟨interactCount_of_isEmpty _ e1, interactCount_of_isEmpty _ e2⟩
      · exfalso
        simp only [findElementsT, e1, e2] at hm
        simp only [Bool.not_true, Bool.false_eq_true, if_false,
          Bool.not_false, if_true] at hm
        cases loc <;> cases desc <;> simp at hm
    · exfalso
      simp only [findElementsT, e1] at hm
      simp only [Bool.not_false, if_true] at hm
      cases loc <;> simp at hm
  · -- strategy 4 runs only when strategies 1-3 produced nothing
    intro hm
    by_cases e1 : (strat1 loc page).isEmpty
    · by_cases e2 : (strat2 desc page).isEmpty
      · by_cases e3 : (strat3 desc page).isEmpty
        · exact ⟨interactCount_of_isEmpty _ e1, interactCount_of_isEmpty _ e2,
            interactCount_of_isEmpty _ e3⟩
        · exfalso
          simp only [findElementsT, e1, e2, e3] at hm
          simp only [Bool.not_true, Bool.false_eq_true, if_false,
            Bool.not_false, if_true] at hm
          cases loc <;> cases desc <;> simp at hm
      · exfalso
        simp only [findElementsT, e1, e2] at hm
        simp only [Bool.not_true, Bool.false_eq_true, if_false,
          Bool.not_false, if_true] at hm
        cases loc <;> cases desc <;> simp at hm
    · exfalso
      simp only [findElementsT, e1] at hm
      simp only [Bool.not_false, if_true] at hm
      cases loc <;> simp at hm
  · -- total miss with a completing attribute scan yields the empty list
    intro m1 m2 m3 m4
    have e1 : (strat1 loc page).isEmpty = true := by rw [m1]; rfl
    have e2 : (strat2 desc page).isEmpty = true := by rw [m2]; rfl
    have e3 : (strat3 desc page).isEmpty = true := by rw [m3]; rfl
    simp only [findElementsT, e1, e2, e3, Bool.not_true, Bool.false_eq_true,
      if_false]
    cases desc with
    | none => simp
    | some d =>
      simp only [strat4] at m4
      simpa using m4
  · -- a throwing attribute scan propagates out of findElements
    intro e m1 m2 m3 m4
    have e1 : (strat1 loc page).isEmpty = true := by rw [m1]; rfl
    have e2 : (strat2 desc page).isEmpty = true := by rw [m2]; rfl
    have e3 : (strat3 desc page).isEmpty = true := by rw [m3]; rfl
    simp only [findElementsT, e1, e2, e3, Bool.not_true, Bool.false_eq_true,
      if_false]
    cases desc with
    | none =>
      simp only [strat4] at m4
      cases m4
    | some d =>
      simp only [strat4] at m4
      simpa using m4
  · -- fEI: strategy 2 runs only when strategy 1 yielded no interactable hit
    intro hm
    unfold findElementIntelligentlyT at hm
    cases hc1 : cand1 loc page with
    | error e => rw [hc1] at hm; simp at hm
    | ok c1 =>
      rw [hc1] at hm
      by_cases hh1 : hit page c1 = true
      · simp [hh1] at hm
      · unfold candHit1
        rw [hc1]
        exact Bool.not_eq_true _ |>.mp hh1
  · -- fEI: strategy 3 runs only when strategies 1-2 yielded no hit
    intro hm
    unfold findElementIntelligentlyT at hm
    cases hc1 : cand1 loc page with
    | error e => rw [hc1] at hm; simp at hm
    | ok c1 =>
      rw [hc1] at hm
      by_cases hh1 : hit page c1 = true
      · simp [hh1] at hm
      · by_cases hh2 : hit page (cand2 desc page) = true
        · exfalso
          simp only [hh1, Bool.false_eq_true, if_false, hh2, if_true] at hm
          cases desc <;> simp at hm
        · refine ⟨?_, Bool.not_eq_true _ |>.mp hh2⟩
          unfold candHit1
          rw [hc1]
          exact Bool.not_eq_true _ |>.mp hh1
  · -- fEI: strategy 4 runs only when strategies 1-2 yielded no hit
    intro hm
    unfold findElementIntelligentlyT at hm
    cases hc1 : cand1 loc page with
    | error e => rw [hc1] at hm; simp at hm
    | ok c1 =>
      rw [hc1] at hm
      by_cases hh1 : hit page c1 = true
      · simp [hh1] at hm
      · by_cases hh2 : hit page (cand2 desc page) = true
        · exfalso
          simp only [hh1, Bool.false_eq_true, if_false, hh2, if_true] at hm
          cases desc <;> simp at hm
        · refine ⟨?_, Bool.not_eq_true _ |>.mp hh2⟩
          unfold candHit1
          rw [hc1]
          exact Bool.not_eq_true _ |>.mp hh1
  · -- fEI: total miss with a selector string yields null
    intro s sels h1 h2 h4
    have hh1 : hit page ((qsa page sels).head?) = false := h1
    have hh2 : hit page (cand2 desc page) = false := h2
    unfold findElementIntelligentlyT
    simp only [cand1, hh1, Bool.false_eq_true, if_false, hh2]
    cases hc4 : cand4 (.valid s sels) page with
    | error e =>
      exfalso
      simp only [cand4, locStr] at hc4
      split_ifs at hc4
    | ok c4 =>
      have hh4 : hit page c4 = false := by
        unfold candHit4 at h4
        rw [hc4] at h4
        exact h4
      simp [hh4]
  · -- fEI: total miss with a null selector throws
    intro h2
    have hh2 : hit page (cand2 desc page) = false := h2
    have h0 : hit page (none : Option Element) = false := rfl
    unfold findElementIntelligentlyT
    simp only [cand1, h0, hh2, Bool.false_eq_true, if_false, cand4, locStr]

/-- Claim C4 (counterexample): a total miss need not produce the empty
result in either resolver.  With no selector string, a description matching
nothing, and no context, `findElementIntelligently` ends in a thrown
TypeError from `findBySimilarity`'s `selector.startsWith` call; and on a
page whose only element carries an `aria-label` attribute, a total miss in
`findElements` reaches the strategy-4 attribute scan, whose
`el["aria-label"].toLowerCase()` dereferences an undefined property —
`findElements` throws instead of returning the empty list, even though all
four strategies yielded nothing. -/
theorem C4_counterexample :
    (findElementIntelligentlyT .noSel (some "zzz") none emptyPage).result
      = .error nullSelErr ∧
    (findElementIntelligentlyT .noSel (some "zzz") none emptyPage).invoked
      = [1, 2, 4] ∧
    findElements (.valid "#nope" [SimpleSel.idSel "nope"]) (some "zzz") ariaPage
      = .error undefinedPropErr ∧
    (findElementsT (.valid "#nope" [SimpleSel.idSel "nope"]) (some "zzz")
      ariaPage).invoked = [1, 2, 3, 4] :=
  ⟨rfl, rfl, rfl, rfl⟩

/-- Claim C4 (witness for the amended theorem): on an attribute-free page a
total miss through a syntactically valid selector string returns the empty
list from `findElements` and null from `findElementIntelligently`, per the
amended theorem. -/
theorem C4_witness :
    findElements (.valid "#nope" [SimpleSel.idSel "nope"]) (some "zzz")
      emptyPage = .ok [] ∧
    (findElementIntelligentlyT (.valid "#nope" [SimpleSel.idSel "nope"])
      none none emptyPage).result = .ok none :=
  ⟨(C4_amended (.valid "#nope" [SimpleSel.idSel "nope"]) (some "zzz") none
      emptyPage).2.2.2.1 rfl rfl rfl rfl,
   (C4_amended (.valid "#nope" [SimpleSel.idSel "nope"]) none none
      emptyPage).2.2.2.2.2.2.2.2.1 "#nope" [SimpleSel.idSel "nope"] rfl rfl rfl⟩

end WebAgent
